import Mathlib

/-!
Shallow embedding of `examples/describe_cg.py` (forgi): a script that collects
descriptive statistics about coarse-grained RNA structures into a table and
writes it as CSV or prints it.  External library calls (forgi's structure
model, 3D geometry, pandas) are modelled as opaque data carried by the `CG`
structure; the script's own control flow, error handling and table assembly
are translated faithfully.  Python exceptions are modelled with `Except`.
-/

set_option autoImplicit false

namespace DescribeCG

/-- The Python exception kinds the script can raise or catch. -/
inductive PyErr where
  | nameError
  | valueError
  | typeError
  | indexError
  | keyError
  | runtimeError (msg : String)
  | rnaMissing3d
  | attributeError
  | other (msg : String)
deriving DecidableEq

/-- Scalar cell values of the feature table: Python ints, floats (as rationals),
the NaN sentinel, strings and booleans. -/
inductive Val where
  | int (n : ℤ)
  | num (q : ℚ)
  | nan
  | str (s : String)
  | bool (b : Bool)
deriving DecidableEq

/-- Python truthiness of an optional string CLI argument: `None` and the empty
string are falsy (`if args.mode:` style tests). -/
def pyTruthy : Option String → Bool
  | none => false
  | some s => s != ""

/-- Python substring test `needle in hay` for strings. -/
def pyInStr (needle hay : String) : Bool :=
  decide (needle.toList <:+: hay.toList)

/-- Python `s[0]`: the first character of a string; IndexError on the empty
string. -/
def pyFirstChar (s : String) : Except PyErr Char :=
  if s = "" then .error .indexError else .ok s.front

/-- A Python list comprehension `[x for x in xs if p x]` whose filter
expression can raise. -/
def pyFilterM {α : Type} (p : α → Except PyErr Bool) : List α → Except PyErr (List α)
  | [] => .ok []
  | x :: xs => do
    let b ← p x
    let rest ← pyFilterM p xs
    .ok (if b then x :: rest else rest)

/-- Python tuple unpacking `a, b = xs` of a list: ValueError unless the list
has exactly two elements. -/
def pyUnpack2 {α : Type} : List α → Except PyErr (α × α)
  | [a, b] => .ok (a, b)
  | _ => .error .valueError

/-- Model of the external coarse-grained RNA structure object (built by the
forgi library, which is out of scope of this script).  Each field models the
result of one external call shape used by the script:

* `defines`: the element identifiers (`cg.defines`), each tagged by a
  one-letter kind code as its first character;
* `find_mlonly_multiloops`: the multiloops, each a list of segment names;
* `describe_multiloop`: the descriptor list for a multiloop;
* `radius_of_gyration`: `cg.radius_of_gyration(mode)`, which can raise
  `RnaMissing3dError`/`AttributeError` when 3D coordinates are absent;
* `anisotropy_fast`/`anisotropy_vres`: `ftmd.anisotropy(cg.get_ordered_stem_poss())`
  and `ftmd.anisotropy(cg.get_ordered_virtual_residue_poss())`;
* `asphericity_fast`/`asphericity_vres`: the same composites with
  `ftmd.asphericity`;
* `virtual_residue_distance a b`: the composite
  `ftuv.vec_distance(cg.get_virtual_residue(int(a), True), cg.get_virtual_residue(int(b), True))`
  including the `int()` parse, any step of which can raise;
* `direction_angle a b`: the composite
  `ftuv.vec_angle(cg.coords.get_direction(a), cg.coords.get_direction(b))`;
* `get_length`, `get_angle_type`, `connections`,
  `junction_virtual_atom_distance`: the per-element lookups used by
  `describe_ml_segments`. -/
structure CG where
  name : String
  seq_length : Nat
  defines : List String
  find_mlonly_multiloops : List (List String)
  describe_multiloop : List String → List String
  radius_of_gyration : String → Except PyErr ℚ
  anisotropy_fast : Except PyErr ℚ
  anisotropy_vres : Except PyErr ℚ
  asphericity_fast : Except PyErr ℚ
  asphericity_vres : Except PyErr ℚ
  virtual_residue_distance : String → String → Except PyErr ℚ
  direction_angle : String → String → Except PyErr ℚ
  get_length : String → ℚ
  get_angle_type : String → Except PyErr ℤ
  connections : String → String × String
  junction_virtual_atom_distance : String → Except PyErr ℚ

/-- The iteration order `for letter in "smifth"` of the per-kind counts. -/
def kindLetters : List Char := ['s', 'm', 'i', 'f', 't', 'h']

/-- One `data["num_"+letter] = len([x for x in cg.defines if x[0] == letter])`
entry per letter (line 44-45 of `describe_cg.py`). -/
def kindCounts (defines : List String) : List Char → Except PyErr (List (String × Val))
  | [] => .ok []
  | c :: cs => do
    let xs ← pyFilterM (fun x => do
      let ch ← pyFirstChar x
      pure (ch == c)) defines
    let rest ← kindCounts defines cs
    .ok ((String.push "num_" c, Val.int xs.length) :: rest)

/-- Lines 42-45 of `describe_rna`: sequence length, total element count and
the six per-kind element counts. -/
def count_block (cg : CG) : Except PyErr (List (String × Val)) := do
  let kinds ← kindCounts cg.defines kindLetters
  .ok ([("nt_length", Val.int cg.seq_length),
        ("num_cg_elems", Val.int cg.defines.length)] ++ kinds)

/-- Lines 50-56 of `describe_rna`: the loop over the multiloops.  The state is
`(junct3, junct4, descriptors)`; `descriptors` is rebound on every iteration,
so only the last multiloop's descriptor list survives the loop.  The test
`"regular_multiloop" in descriptors[-1]` is a substring test on the *last*
descriptor string and raises IndexError when the descriptor list is empty. -/
def ml_loop (cg : CG) : List (List String) → Nat × Nat × List String →
    Except PyErr (Nat × Nat × List String)
  | [], st => .ok st
  | ml :: rest, (j3, j4, _) =>
    let descriptors := cg.describe_multiloop ml
    match descriptors.getLast? with
    | none => .error .indexError
    | some d =>
      let st' :=
        if pyInStr "regular_multiloop" d then
          if ml.length = 3 then (j3 + 1, j4, descriptors)
          else if ml.length = 4 then (j3, j4 + 1, descriptors)
          else (j3, j4, descriptors)
        else (j3, j4, descriptors)
      ml_loop cg rest st'

/-- `len([d for d in descriptors if needle in d])`: how many descriptor
strings contain `needle` as a substring. -/
def pyCountIn (needle : String) (ds : List String) : Nat :=
  (ds.filter (fun d => pyInStr needle d)).length

/-- Lines 46-65 of `describe_rna`: junction counts and the multiloop
descriptor counts, the latter computed from whatever `descriptors` holds
after the loop (the last multiloop's list, or `[]` if there are none). -/
def ml_row (cg : CG) : Except PyErr (List (String × Val)) := do
  let st ← ml_loop cg cg.find_mlonly_multiloops (0, 0, [])
  .ok [("3-way-junctions", Val.int st.1),
       ("4-way-junctions", Val.int st.2.1),
       ("open_mls", Val.int (pyCountIn "open" st.2.2)),
       ("pseudoknots", Val.int (pyCountIn "pseudoknot" st.2.2)),
       ("regular_mls", Val.int (pyCountIn "regular_multiloop" st.2.2)),
       ("total_mls", Val.int cg.find_mlonly_multiloops.length)]

/-- Python `try: body except ValueError: fallback` for a single expression
statement: only ValueError is caught. -/
def pyTryValueError (body : Except PyErr Val) (fallback : Val) : Except PyErr Val :=
  match body with
  | .error .valueError => .ok fallback
  | r => r

/-- Line 67 evaluates `mmax(len(x) for x in multiloops)`, but no `mmax` is
defined, imported or built in anywhere in the script, so evaluating the name
raises NameError before the generator is even consumed — for every structure,
with or without multiloops. -/
def mmax_call (_cg : CG) : Except PyErr Val := .error .nameError

/-- Lines 66-69 of `describe_rna`: the `longest_ml` computation.  The handler
catches only ValueError, so the NameError from `mmax` propagates. -/
def longest_ml_block (cg : CG) : Except PyErr Val :=
  pyTryValueError (mmax_call cg) (Val.int 0)

/-- Lines 66-69 as the spec describes them (with `max`, whose ValueError on an
empty sequence is caught and turned into 0): the maximum multiloop size, or 0
when there are no multiloops.  Kept for comparison with `longest_ml_block`. -/
def longest_ml_intended (cg : CG) : Val :=
  match cg.find_mlonly_multiloops.map List.length with
  | [] => Val.int 0
  | n :: ns => Val.int (((n :: ns).foldl Nat.max 0 : Nat) : ℤ)

/-- Lines 70-84 of `describe_rna`: the six shape metrics.  If the fast radius
of gyration raises `RnaMissing3dError` or `AttributeError`, all six entries
are set to NaN; otherwise the five remaining metrics are computed (their own
failures are not caught and propagate). -/
def shape_metrics (cg : CG) : Except PyErr (List (String × Val)) :=
  match cg.radius_of_gyration "fast" with
  | .error e =>
    if e = .rnaMissing3d ∨ e = .attributeError then
      .ok [("rog_fast", Val.nan), ("rog_vres", Val.nan),
           ("anisotropy_fast", Val.nan), ("anisotropy_vres", Val.nan),
           ("asphericity_fast", Val.nan), ("asphericity_vres", Val.nan)]
    else .error e
  | .ok v => do
    let rv ← cg.radius_of_gyration "vres"
    let anf ← cg.anisotropy_fast
    let anv ← cg.anisotropy_vres
    let asf ← cg.asphericity_fast
    let asv ← cg.asphericity_vres
    .ok [("rog_fast", Val.num v), ("rog_vres", Val.num rv),
         ("anisotropy_fast", Val.num anf), ("anisotropy_vres", Val.num anv),
         ("asphericity_fast", Val.num asf), ("asphericity_vres", Val.num asv)]

/-- The log records the script emits, with the identifying context each call
site interpolates (record ordinal, structure name, and the pair for the
per-metric warnings). -/
inductive LogEntry where
  | info (file_num : Nat) (name : String)
  | warnDistance (file_num : Nat) (name from_nt to_nt : String)
  | warnAngle (file_num : Nat) (name elem1 elem2 : String)
  | errorStructure (file_num : Nat) (name : String)
deriving DecidableEq

/-- Lines 85-95 of `describe_rna`: one `distance_{from}_{to}` entry per
requested nucleotide pair.  Any exception from the lookup is replaced by NaN
plus one warning; a malformed pair (not exactly two components) raises
ValueError at the tuple unpacking, outside the `try`. -/
def dist_entries (cg : CG) (file_num : Nat) :
    List (List String) → Except PyErr (List (String × Val) × List LogEntry)
  | [] => .ok ([], [])
  | chunk :: rest => do
    let p ← pyUnpack2 chunk
    let r ← dist_entries cg file_num rest
    match cg.virtual_residue_distance p.1 p.2 with
    | .ok q => .ok (("distance_" ++ p.1 ++ "_" ++ p.2, Val.num q) :: r.1, r.2)
    | .error _ =>
      .ok (("distance_" ++ p.1 ++ "_" ++ p.2, Val.nan) :: r.1,
           LogEntry.warnDistance file_num cg.name p.1 p.2 :: r.2)

/-- Lines 96-106 of `describe_rna`: one `angle_{elem1}_{elem2}` entry per
requested element pair, with the same failure policy as the distances. -/
def angle_entries (cg : CG) (file_num : Nat) :
    List (List String) → Except PyErr (List (String × Val) × List LogEntry)
  | [] => .ok ([], [])
  | chunk :: rest => do
    let p ← pyUnpack2 chunk
    let r ← angle_entries cg file_num rest
    match cg.direction_angle p.1 p.2 with
    | .ok q => .ok (("angle_" ++ p.1 ++ "_" ++ p.2, Val.num q) :: r.1, r.2)
    | .error _ =>
      .ok (("angle_" ++ p.1 ++ "_" ++ p.2, Val.nan) :: r.1,
           LogEntry.warnAngle file_num cg.name p.1 p.2 :: r.2)

/-- `describe_rna` (lines 40-107): the whole-structure feature row in dict
insertion order, together with the warnings logged along the way. -/
def describe_rna (cg : CG) (file_num : Nat) (dist_chunks angle_chunks : List (List String)) :
    Except PyErr (List (String × Val) × List LogEntry) := do
  let counts ← count_block cg
  let mls ← ml_row cg
  let lml ← longest_ml_block cg
  let shape ← shape_metrics cg
  let d ← dist_entries cg file_num dist_chunks
  let a ← angle_entries cg file_num angle_chunks
  .ok (counts ++ mls ++ [("longest_ml", lml)] ++ shape ++ d.1 ++ a.1, d.2 ++ a.2)

/-- The column lists accumulated by `describe_ml_segments` (a
`defaultdict(list)` in the source), one entry per processed "m"-segment. -/
structure SegData where
  segment : List Val
  junction_length : List Val
  segment_length : List Val
  angle_type : List Val
  angle_between_stems : List Val
  junction_va_distance : List Val
  is_external_multiloop : List Val
  is_pseudoknotted_multiloop : List Val
  is_regular_multiloop : List Val
deriving DecidableEq

/-- The empty `defaultdict(list)` of `describe_ml_segments`. -/
def SegData.empty : SegData := ⟨[], [], [], [], [], [], [], [], []⟩

/-- One inner-loop iteration of `describe_ml_segments` (lines 114-127):
segments whose kind code is not "m" are skipped; for the others one value is
appended to every column.  The flags come from `description`, the descriptor
list of the multiloop the segment belongs to. -/
def seg_step (cg : CG) (loop description : List String) (sd : SegData) (segment : String) :
    Except PyErr SegData := do
  let c ← pyFirstChar segment
  if c ≠ 'm' then .ok sd
  else do
    let at_val ← cg.get_angle_type segment
    let conn := cg.connections segment
    let ang ← cg.direction_angle conn.1 conn.2
    let jd ← cg.junction_virtual_atom_distance segment
    .ok { segment := sd.segment ++ [Val.str segment],
          junction_length := sd.junction_length ++ [Val.int loop.length],
          segment_length := sd.segment_length ++ [Val.num (cg.get_length segment)],
          angle_type := sd.angle_type ++ [Val.int (abs at_val)],
          angle_between_stems := sd.angle_between_stems ++ [Val.num ang],
          junction_va_distance := sd.junction_va_distance ++ [Val.num jd],
          is_external_multiloop :=
            sd.is_external_multiloop ++ [Val.bool (description.contains "open")],
          is_pseudoknotted_multiloop :=
            sd.is_pseudoknotted_multiloop ++ [Val.bool (description.contains "pseudoknot")],
          is_regular_multiloop :=
            sd.is_regular_multiloop ++ [Val.bool (description.contains "regular_multiloop")] }

/-- The inner loop `for segment in loop` of `describe_ml_segments`. -/
def seg_fold (cg : CG) (loop description : List String) :
    List String → SegData → Except PyErr SegData
  | [], sd => .ok sd
  | s :: rest, sd => do
    let sd' ← seg_step cg loop description sd s
    seg_fold cg loop description rest sd'

/-- The outer loop `for loop in loops` of `describe_ml_segments`: the
descriptor list is computed once per multiloop and shared by all its
segments. -/
def ml_seg_fold (cg : CG) : List (List String) → SegData → Except PyErr SegData
  | [], sd => .ok sd
  | loop :: rest, sd => do
    let sd' ← seg_fold cg loop (cg.describe_multiloop loop) loop sd
    ml_seg_fold cg rest sd'

/-- `describe_ml_segments` (lines 109-129). -/
def describe_ml_segments (cg : CG) : Except PyErr SegData :=
  ml_seg_fold cg cg.find_mlonly_multiloops SegData.empty

/-- The column-oriented accumulating table (`data = defaultdict(list)` of the
driver), in column insertion order. -/
abbrev Table := List (String × List Val)

/-- `data[k].append(v)` on a `defaultdict(list)`: append to the column if it
exists, otherwise create it at the end. -/
def tableAppend (t : Table) (k : String) (v : Val) : Table :=
  match t with
  | [] => [(k, [v])]
  | (k', vs) :: rest =>
    if k' = k then (k', vs ++ [v]) :: rest else (k', vs) :: tableAppend rest k v

/-- Append every key/value of a feature row to the table, in row order. -/
def tableAppendRow (t : Table) (row : List (String × Val)) : Table :=
  row.foldl (fun acc kv => tableAppend acc kv.1 kv.2) t

/-- The column headers of the table, in order. -/
def tableCols (t : Table) : List String := t.map Prod.fst

/-- Look a column up by name. -/
def tableGet (t : Table) (k : String) : Option (List Val) :=
  match t with
  | [] => none
  | (k', vs) :: rest => if k' = k then some vs else tableGet rest k

/-- The columns of a `SegData` in Python dict insertion order, as iterated by
`new_data.items()` in the driver. -/
def SegData.items (sd : SegData) : List (String × List Val) :=
  [("segment", sd.segment), ("junction_length", sd.junction_length),
   ("segment_length", sd.segment_length), ("angle_type", sd.angle_type),
   ("angle_between_stems", sd.angle_between_stems),
   ("junction_va_distance", sd.junction_va_distance),
   ("is_external_multiloop", sd.is_external_multiloop),
   ("is_pseudoknotted_multiloop", sd.is_pseudoknotted_multiloop),
   ("is_regular_multiloop", sd.is_regular_multiloop)]

/-- Lines 155-159 of the driver: in per-ml mode, one table row per entry of
`new_data["segment"]`; each row gets the name/filename key block plus every
column's i-th value.  All `SegData` columns share the same length, so the
`v[i]` indexing is modelled with `getD` (the default is never used for data
produced by `describe_ml_segments`). -/
def per_ml_expand (name filename : String) (sd : SegData) (t : Table) : Table :=
  (List.range sd.segment.length).foldl
    (fun acc i =>
      (SegData.items sd).foldl (fun a kv => tableAppend a kv.1 (kv.2.getD i Val.nan))
        (tableAppend (tableAppend acc "name" (Val.str name)) "filename" (Val.str filename)))
    t

/-- The CLI arguments the driver consumes. -/
structure Args where
  csv : Option String
  keys : Option String
  angles : Option String
  distances : Option String
  per_ml : Bool
  mode : Option String

/-- Lines 137-147 of the driver: split a pair-list argument
`"a,b:c,d"` into `[[a, b], [c, d]]`; a falsy argument gives the empty list. -/
def parse_chunks (arg : Option String) : List (List String) :=
  if pyTruthy arg then
    ((arg.getD "").splitOn ":").map (fun x => x.splitOn ",")
  else []

/-- The body of the per-structure `try` block (lines 152-165): compute the key
block and the extracted features and append them to the table, one row per
structure in whole-structure mode and one row per segment in per-ml mode.
Returns the grown table and the warnings logged during extraction. -/
def extract_one (args : Args) (file_num : Nat) (cg : CG) (filename : String) (t : Table) :
    Except PyErr (Table × List LogEntry) :=
  if args.per_ml then do
    let sd ← describe_ml_segments cg
    .ok (per_ml_expand cg.name filename sd t, [])
  else do
    let rw ← describe_rna cg file_num (parse_chunks args.distances) (parse_chunks args.angles)
    .ok (tableAppendRow
           (tableAppendRow t [("name", Val.str cg.name), ("filename", Val.str filename)])
           rw.1,
         rw.2)

/-- The driver loop (lines 148-169): log an info record, extract, and on any
exception log an error record with the structure's ordinal and name and
re-raise (returning `some e` — no later structure is processed). -/
def process_structs (args : Args) : List (CG × String) → Nat → Table → List LogEntry →
    Table × List LogEntry × Option PyErr
  | [], _, t, lg => (t, lg, none)
  | (cg, fn) :: rest, file_num, t, lg =>
    let lg1 := lg ++ [LogEntry.info file_num cg.name]
    match extract_one args file_num cg fn t with
    | .ok r => process_structs args rest (file_num + 1) r.1 (lg1 ++ r.2)
    | .error e => (t, lg1 ++ [LogEntry.errorStructure file_num cg.name], some e)

/-- Lines 170-174 of the driver: with a truthy `--keys a,b`, delete every
column not in the allow-list `["a", "b", "name"]`. -/
def key_filter (keysArg : Option String) (t : Table) : Table :=
  if pyTruthy keysArg then
    let allowed := (keysArg.getD "").splitOn "," ++ ["name"]
    t.filter (fun kv => allowed.contains kv.1)
  else t

/-- The result table after `df.set_index("name", append=True)`: the name
column moved into the index. -/
structure DFrame where
  name_index : List Val
  cols : Table
deriving DecidableEq

/-- Line 176: `df.set_index("name", append=True)` — KeyError when there is no
name column. -/
def set_name_index (t : Table) : Except PyErr DFrame :=
  match tableGet t "name" with
  | none => .error .keyError
  | some names => .ok ⟨names, t.filter (fun kv => kv.1 != "name")⟩

/-- What the output stage does with the finished table. -/
inductive OutAction where
  | csvOverwrite (path : String) (df : DFrame)
  | csvAppend (path : String) (df : DFrame)
  | printed (df : DFrame)
deriving DecidableEq

/-- Lines 177-190 of the driver: CSV versus stdout output.  The mode checks
use Python truthiness, so an empty-string `--mode` counts as unspecified. -/
def output_stage (csvArg modeArg : Option String) (fileExists : Bool) (df : DFrame) :
    Except PyErr OutAction :=
  if pyTruthy csvArg then
    let path := csvArg.getD ""
    if pyTruthy modeArg = false ∧ fileExists then
      .error (.runtimeError ("File " ++ path ++ " exists already."))
    else if pyTruthy modeArg = false ∨ modeArg = some "o" then
      .ok (.csvOverwrite path df)
    else if modeArg = some "a" then
      .ok (.csvAppend path df)
    else
      .error .valueError
  else
    .ok (.printed df)

/-- The whole driver (lines 132-190): the structure loop, the column filter,
the name index and the output stage.  The first uncaught per-structure
exception aborts the run with no output action. -/
def main_run (args : Args) (inputs : List (CG × String)) (fileExists : Bool) :
    List LogEntry × Except PyErr OutAction :=
  match process_structs args inputs 1 [] [] with
  | (t, lg, none) =>
    match set_name_index (key_filter args.keys t) with
    | .error e => (lg, .error e)
    | .ok df =>
      match output_stage args.csv args.mode fileExists df with
      | .error e => (lg, .error e)
      | .ok act => (lg, .ok act)
  | (_, lg, some e) => (lg, .error e)

/-- The descriptor list that survives the loop of lines 50-56: the one of the
last multiloop in iteration order, or `[]` when there are no multiloops. -/
def lastDescriptors (cg : CG) : List String :=
  match cg.find_mlonly_multiloops.getLast? with
  | none => []
  | some ml => cg.describe_multiloop ml

/-- Kind test for multiloop-junction segments (kind code "m"). -/
def isMlSeg (s : String) : Bool := s.front == 'm'

/-- The total count of "m"-kind segments over all multiloops of a structure. -/
def mSegTotal (cg : CG) : Nat :=
  (cg.find_mlonly_multiloops.map (fun l => (l.filter isMlSeg).length)).sum

/-- One flag column as the spec states it: for every multiloop and every
"m"-segment of it, whether that segment's own multiloop's descriptor list
contains `needle`. -/
def segFlagsSpec (cg : CG) (needle : String) : List Val :=
  (cg.find_mlonly_multiloops.map (fun l =>
    (l.filter isMlSeg).map (fun _ => Val.bool ((cg.describe_multiloop l).contains needle)))).flatten

/-- The segment column as the spec states it: the "m"-kind segments of all
multiloops, in iteration order. -/
def segNamesSpec (cg : CG) : List Val :=
  (cg.find_mlonly_multiloops.map (fun l => (l.filter isMlSeg).map Val.str)).flatten

/-- The per-pair distance entry as the spec states it: the computed value, or
NaN when the lookup raises. -/
def distEntrySpec (cg : CG) (p : String × String) : String × Val :=
  ("distance_" ++ p.1 ++ "_" ++ p.2,
   match cg.virtual_residue_distance p.1 p.2 with
   | .ok q => Val.num q
   | .error _ => Val.nan)

/-- Whether the distance lookup for a pair raises. -/
def distFails (cg : CG) (p : String × String) : Bool :=
  match cg.virtual_residue_distance p.1 p.2 with
  | .ok _ => false
  | .error _ => true

/-- The warning logged for a failed distance pair. -/
def distWarnSpec (cg : CG) (file_num : Nat) (p : String × String) : LogEntry :=
  LogEntry.warnDistance file_num cg.name p.1 p.2

/-- The per-pair angle entry as the spec states it. -/
def angleEntrySpec (cg : CG) (p : String × String) : String × Val :=
  ("angle_" ++ p.1 ++ "_" ++ p.2,
   match cg.direction_angle p.1 p.2 with
   | .ok q => Val.num q
   | .error _ => Val.nan)

/-- Whether the angle lookup for a pair raises. -/
def angleFails (cg : CG) (p : String × String) : Bool :=
  match cg.direction_angle p.1 p.2 with
  | .ok _ => false
  | .error _ => true

/-- The warning logged for a failed angle pair. -/
def angleWarnSpec (cg : CG) (file_num : Nat) (p : String × String) : LogEntry :=
  LogEntry.warnAngle file_num cg.name p.1 p.2

/-- The number of rows of the accumulated table, read off the name column. -/
def rowCount (t : Table) : Nat := ((tableGet t "name").getD []).length

/-- A concrete structure with no multiloops, used as a witness input. -/
def cgNoMl : CG where
  name := "mol1"
  seq_length := 10
  defines := ["s0", "h0"]
  find_mlonly_multiloops := []
  describe_multiloop := fun _ => ["open"]
  radius_of_gyration := fun _ => .ok 3
  anisotropy_fast := .ok 1
  anisotropy_vres := .ok 1
  asphericity_fast := .ok 0
  asphericity_vres := .ok 0
  virtual_residue_distance := fun _ _ => .ok 5
  direction_angle := fun _ _ => .ok 1
  get_length := fun _ => 4
  get_angle_type := fun _ => .ok 2
  connections := fun _ => ("s0", "s1")
  junction_virtual_atom_distance := fun _ => .ok 6

/-- A concrete structure with two multiloops whose descriptor lists differ,
used as a witness input: the loop keeps only the second list. -/
def cgTwoMl : CG where
  name := "mol2"
  seq_length := 40
  defines := ["s0", "s1", "m0", "m1", "m2", "m3", "m4"]
  find_mlonly_multiloops := [["m0", "m1"], ["m2", "m3", "m4"]]
  describe_multiloop := fun ml =>
    if ml.length = 2 then ["open", "pseudoknot"] else ["regular_multiloop"]
  radius_of_gyration := fun _ => .ok 3
  anisotropy_fast := .ok 1
  anisotropy_vres := .ok 1
  asphericity_fast := .ok 0
  asphericity_vres := .ok 0
  virtual_residue_distance := fun _ _ => .ok 5
  direction_angle := fun _ _ => .ok 1
  get_length := fun _ => 4
  get_angle_type := fun _ => .ok 2
  connections := fun _ => ("s0", "s1")
  junction_virtual_atom_distance := fun _ => .ok 6

/-- A concrete structure without 3D coordinates: the fast radius of gyration
raises `RnaMissing3dError`. -/
def cgNo3d : CG where
  name := "mol3"
  seq_length := 12
  defines := ["s0", "h0"]
  find_mlonly_multiloops := []
  describe_multiloop := fun _ => ["open"]
  radius_of_gyration := fun _ => .error .rnaMissing3d
  anisotropy_fast := .error .rnaMissing3d
  anisotropy_vres := .error .rnaMissing3d
  asphericity_fast := .error .rnaMissing3d
  asphericity_vres := .error .rnaMissing3d
  virtual_residue_distance := fun _ _ => .error .rnaMissing3d
  direction_angle := fun _ _ => .error .rnaMissing3d
  get_length := fun _ => 4
  get_angle_type := fun _ => .ok 2
  connections := fun _ => ("s0", "s1")
  junction_virtual_atom_distance := fun _ => .error .rnaMissing3d

/-- A concrete structure on which per-segment extraction succeeds: two
multiloops with three "m"-kind segments in total. -/
def cgSegOk : CG where
  name := "mol4"
  seq_length := 60
  defines := ["s0", "s1", "s2", "m0", "m1", "m2", "h0"]
  find_mlonly_multiloops := [["m0", "s1", "m1"], ["m2"]]
  describe_multiloop := fun ml => if ml.length = 3 then ["regular_multiloop"] else ["open"]
  radius_of_gyration := fun _ => .ok 3
  anisotropy_fast := .ok 1
  anisotropy_vres := .ok 1
  asphericity_fast := .ok 0
  asphericity_vres := .ok 0
  virtual_residue_distance := fun _ _ => .ok 5
  direction_angle := fun _ _ => .ok 1
  get_length := fun _ => 4
  get_angle_type := fun _ => .ok 2
  connections := fun _ => ("s0", "s1")
  junction_virtual_atom_distance := fun _ => .ok 6

/-- A concrete structure on which per-segment extraction raises (the angle
type lookup of its one junction segment fails with TypeError). -/
def cgSegBad : CG where
  name := "mol5"
  seq_length := 20
  defines := ["s0", "s1", "m9"]
  find_mlonly_multiloops := [["m9"]]
  describe_multiloop := fun _ => ["open"]
  radius_of_gyration := fun _ => .ok 3
  anisotropy_fast := .ok 1
  anisotropy_vres := .ok 1
  asphericity_fast := .ok 0
  asphericity_vres := .ok 0
  virtual_residue_distance := fun _ _ => .ok 5
  direction_angle := fun _ _ => .ok 1
  get_length := fun _ => 4
  get_angle_type := fun _ => .error .typeError
  connections := fun _ => ("s0", "s1")
  junction_virtual_atom_distance := fun _ => .ok 6

/-- The per-segment data `describe_ml_segments` computes for `cgSegOk`: three
"m"-segments, the first two from the regular three-way junction, the third
from the open one-segment multiloop. -/
def sdSegOk : SegData where
  segment := [Val.str "m0", Val.str "m1", Val.str "m2"]
  junction_length := [Val.int 3, Val.int 3, Val.int 1]
  segment_length := [Val.num 4, Val.num 4, Val.num 4]
  angle_type := [Val.int 2, Val.int 2, Val.int 2]
  angle_between_stems := [Val.num 1, Val.num 1, Val.num 1]
  junction_va_distance := [Val.num 6, Val.num 6, Val.num 6]
  is_external_multiloop := [Val.bool false, Val.bool false, Val.bool true]
  is_pseudoknotted_multiloop := [Val.bool false, Val.bool false, Val.bool false]
  is_regular_multiloop := [Val.bool true, Val.bool true, Val.bool false]

/-- Concrete CLI arguments for a per-ml run (no csv, keys, pairs or mode). -/
def argsPerMl : Args := ⟨none, none, none, none, true, none⟩

/-- An empty result frame, used as a witness input of the output stage. -/
def dfEmpty : DFrame := ⟨[], []⟩

/-- A concrete accumulated table with four columns, used as a witness input of
the column filter. -/
def tC8 : Table :=
  [("name", [Val.str "mol1"]), ("filename", [Val.str "f1"]),
   ("a", [Val.int 1]), ("c", [Val.int 2])]

/-! ## Theorems -/

/-- C1: the claim says `longest_ml` is 0 without multiloops and the maximum
multiloop size otherwise.  The code instead evaluates the undefined name
`mmax`, which raises NameError; the handler catches only ValueError, so
`describe_rna` aborts before any `longest_ml` value (or any later entry) is
written — shown here for every structure at the `longest_ml` statement, and
end to end on a concrete structure with zero multiloops, where the claim
demands the value 0. -/
theorem c1_longest_ml_raises_name_error :
    (∀ cg : CG, longest_ml_block cg = .error .nameError) ∧
    describe_rna cgNoMl 1 [] [] = .error .nameError ∧
    longest_ml_intended cgNoMl = Val.int 0 :=
  ⟨fun _ => rfl, rfl, rfl⟩

/-- C3: when the fast radius of gyration fails with the missing-3D exceptions,
all six shape-metric entries are NaN and none is partially computed. -/
theorem c3_shape_metrics_all_nan (cg : CG) (e : PyErr)
    (he : cg.radius_of_gyration "fast" = .error e)
    (h3d : e = PyErr.rnaMissing3d ∨ e = PyErr.attributeError) :
    shape_metrics cg = .ok [("rog_fast", Val.nan), ("rog_vres", Val.nan),
      ("anisotropy_fast", Val.nan), ("anisotropy_vres", Val.nan),
      ("asphericity_fast", Val.nan), ("asphericity_vres", Val.nan)] := by
  unfold shape_metrics
  rw [he]
  rcases h3d with rfl | rfl <;> simp

/-- C3 witness: the concrete structure without 3D coordinates gets all six
NaN entries. -/
theorem c3_witness :
    shape_metrics cgNo3d = .ok [("rog_fast", Val.nan), ("rog_vres", Val.nan),
      ("anisotropy_fast", Val.nan), ("anisotropy_vres", Val.nan),
      ("asphericity_fast", Val.nan), ("asphericity_vres", Val.nan)] :=
  c3_shape_metrics_all_nan cgNo3d PyErr.rnaMissing3d rfl (Or.inl rfl)

/-- C10: without `--csv`, the mode argument is never inspected: the output
stage prints the table for every mode value. -/
theorem c10_no_csv_mode_never_validated (modeArg : Option String) (fileExists : Bool)
    (df : DFrame) :
    output_stage none modeArg fileExists df = .ok (.printed df) := rfl

/-- C6 counterexample: `--mode ""` is a mode value other than "a" and "o",
yet with a non-existing target file the output stage performs an overwrite
write instead of raising ValueError (Python truthiness treats "" as an
unspecified mode). -/
theorem c6_counterexample :
    ("" ≠ "a" ∧ "" ≠ "o") ∧
    output_stage (some "out.csv") (some "") false dfEmpty =
      .ok (.csvOverwrite "out.csv" dfEmpty) :=
  ⟨by decide, rfl⟩

/-- C6 (amended): with a CSV path, an existing target and a falsy mode raise
RuntimeError before any write; mode "o", or a falsy mode with a non-existing
target, overwrites; mode "a" appends; any other *non-empty* mode value raises
ValueError before any write; the empty-string mode behaves like an
unspecified one. -/
theorem c6_csv_mode_handling (path : String) (df : DFrame) (hp : path ≠ "") :
    (∀ modeArg, pyTruthy modeArg = false →
      output_stage (some path) modeArg true df =
        .error (.runtimeError ("File " ++ path ++ " exists already."))) ∧
    (∀ fileExists, output_stage (some path) (some "o") fileExists df =
      .ok (.csvOverwrite path df)) ∧
    (∀ modeArg, pyTruthy modeArg = false →
      output_stage (some path) modeArg false df = .ok (.csvOverwrite path df)) ∧
    (∀ fileExists, output_stage (some path) (some "a") fileExists df =
      .ok (.csvAppend path df)) ∧
    (∀ m, m ≠ "o" → m ≠ "a" → m ≠ "" → ∀ fileExists,
      output_stage (some path) (some m) fileExists df = .error .valueError) := by
  have hpt : pyTruthy (some path) = true := by
    simp [pyTruthy, hp]
  refine ⟨?_, ?_, ?_, ?_, ?_⟩
  · intro modeArg hm
    simp [output_stage, hpt, hm]
  · intro fileExists
    simp [output_stage, hpt, pyTruthy, hp]
  · intro modeArg hm
    simp [output_stage, hpt, hm]
  · intro fileExists
    simp [output_stage, hpt, pyTruthy, hp]
  · intro m ho ha he fileExists
    simp [output_stage, hpt, pyTruthy, he, ho, ha, hp]

/-- C6 witness: the amended behaviour at the concrete path "out.csv", the
empty frame and the unrecognized mode value "x". -/
theorem c6_witness :
    (∀ modeArg, pyTruthy modeArg = false →
      output_stage (some "out.csv") modeArg true dfEmpty =
        .error (.runtimeError ("File " ++ "out.csv" ++ " exists already."))) ∧
    (∀ fileExists, output_stage (some "out.csv") (some "o") fileExists dfEmpty =
      .ok (.csvOverwrite "out.csv" dfEmpty)) ∧
    (∀ modeArg, pyTruthy modeArg = false →
      output_stage (some "out.csv") modeArg false dfEmpty =
        .ok (.csvOverwrite "out.csv" dfEmpty)) ∧
    (∀ fileExists, output_stage (some "out.csv") (some "a") fileExists dfEmpty =
      .ok (.csvAppend "out.csv" dfEmpty)) ∧
    (∀ m, m ≠ "o" → m ≠ "a" → m ≠ "" → ∀ fileExists,
      output_stage (some "out.csv") (some m) fileExists dfEmpty = .error .valueError) :=
  c6_csv_mode_handling "out.csv" dfEmpty (by decide)

/-- Helper: the loop of lines 50-56 succeeds when every descriptor list it
touches is nonempty, and its final state carries the last multiloop's
descriptor list (the initial one when there is no multiloop). -/
theorem ml_loop_last (cg : CG) (mls : List (List String))
    (h : ∀ ml ∈ mls, cg.describe_multiloop ml ≠ []) :
    ∀ st : Nat × Nat × List String, ∃ j3 j4, ml_loop cg mls st =
      .ok (j3, j4, (mls.map cg.describe_multiloop).getLastD st.2.2) := by
  induction mls with
  | nil => exact fun st => ⟨st.1, st.2.1, rfl⟩
  | cons ml rest ih =>
    intro st
    have hne : cg.describe_multiloop ml ≠ [] := h ml (List.mem_cons_self ml rest)
    obtain ⟨d, hd⟩ : ∃ d, (cg.describe_multiloop ml).getLast? = some d := by
      rcases hl : (cg.describe_multiloop ml).getLast? with _ | d
      · exact absurd (List.getLast?_eq_none_iff.mp hl) hne
      · exact ⟨d, rfl⟩
    have step :
        ml_loop cg (ml :: rest) st =
          ml_loop cg rest
            (if pyInStr "regular_multiloop" d then
              if ml.length = 3 then (st.1 + 1, st.2.1, cg.describe_multiloop ml)
              else if ml.length = 4 then (st.1, st.2.1 + 1, cg.describe_multiloop ml)
              else (st.1, st.2.1, cg.describe_multiloop ml)
            else (st.1, st.2.1, cg.describe_multiloop ml)) := by
      obtain ⟨j3, j4, ds⟩ := st
      simp only [ml_loop, hd]
    rw [step]
    have h22 : (if pyInStr "regular_multiloop" d then
          if ml.length = 3 then (st.1 + 1, st.2.1, cg.describe_multiloop ml)
          else if ml.length = 4 then (st.1, st.2.1 + 1, cg.describe_multiloop ml)
          else (st.1, st.2.1, cg.describe_multiloop ml)
        else (st.1, st.2.1, cg.describe_multiloop ml)).2.2 = cg.describe_multiloop ml := by
      split
      · split
        · rfl
        · split
          · rfl
          · rfl
      · rfl
    obtain ⟨j3, j4, hrec⟩ := ih (fun y hy => h y (List.mem_cons_of_mem ml hy)) _
    refine ⟨j3, j4, ?_⟩
    rw [hrec, h22]
    rw [List.map_cons, List.getLastD_cons]

/-- Helper: `lastDescriptors` is the `getLastD` of the mapped descriptor
lists. -/
theorem lastDescriptors_eq (cg : CG) :
    lastDescriptors cg =
      (cg.find_mlonly_multiloops.map cg.describe_multiloop).getLastD [] := by
  unfold lastDescriptors
  rcases hl : cg.find_mlonly_multiloops.getLast? with _ | ml
  · rw [List.getLast?_eq_none_iff.mp hl]
    rfl
  · rw [List.getLastD_eq_getLast?, List.getLast?_map, hl]
    rfl

/-- C2: the whole-structure descriptor counts `open_mls`, `pseudoknots` and
`regular_mls` are computed from the descriptor list of the last multiloop in
iteration order alone (the loop variable is reused), and are counts over the
empty list — hence all 0 — when the structure has no multiloops. -/
theorem c2_descriptor_counts_from_last_multiloop (cg : CG)
    (h : ∀ ml ∈ cg.find_mlonly_multiloops, cg.describe_multiloop ml ≠ []) :
    (∃ j3 j4, ml_row cg = .ok
      [("3-way-junctions", Val.int j3), ("4-way-junctions", Val.int j4),
       ("open_mls", Val.int (pyCountIn "open" (lastDescriptors cg))),
       ("pseudoknots", Val.int (pyCountIn "pseudoknot" (lastDescriptors cg))),
       ("regular_mls", Val.int (pyCountIn "regular_multiloop" (lastDescriptors cg))),
       ("total_mls", Val.int cg.find_mlonly_multiloops.length)]) ∧
    (cg.find_mlonly_multiloops = [] →
      pyCountIn "open" (lastDescriptors cg) = 0 ∧
      pyCountIn "pseudoknot" (lastDescriptors cg) = 0 ∧
      pyCountIn "regular_multiloop" (lastDescriptors cg) = 0) := by
  constructor
  · obtain ⟨j3, j4, hloop⟩ := ml_loop_last cg cg.find_mlonly_multiloops h (0, 0, [])
    refine ⟨j3, j4, ?_⟩
    unfold ml_row
    rw [hloop]
    rw [lastDescriptors_eq]
    rfl
  · intro hempty
    unfold lastDescriptors
    rw [hempty]
    exact ⟨rfl, rfl, rfl⟩

/-- C2 witness: on the concrete two-multiloop structure, where the first
multiloop is open and pseudoknotted and the second regular, only the second
multiloop's descriptor list is counted. -/
theorem c2_witness :
    (∃ j3 j4, ml_row cgTwoMl = .ok
      [("3-way-junctions", Val.int j3), ("4-way-junctions", Val.int j4),
       ("open_mls", Val.int (pyCountIn "open" (lastDescriptors cgTwoMl))),
       ("pseudoknots", Val.int (pyCountIn "pseudoknot" (lastDescriptors cgTwoMl))),
       ("regular_mls", Val.int (pyCountIn "regular_multiloop" (lastDescriptors cgTwoMl))),
       ("total_mls", Val.int cgTwoMl.find_mlonly_multiloops.length)]) ∧
    (cgTwoMl.find_mlonly_multiloops = [] →
      pyCountIn "open" (lastDescriptors cgTwoMl) = 0 ∧
      pyCountIn "pseudoknot" (lastDescriptors cgTwoMl) = 0 ∧
      pyCountIn "regular_multiloop" (lastDescriptors cgTwoMl) = 0) :=
  c2_descriptor_counts_from_last_multiloop cgTwoMl (by decide)

/-- Helper: the kind-count comprehension succeeds on nonempty element names
and computes the count of elements whose first character is the letter. -/
theorem pyFilterM_kind (c : Char) (xs : List String) (h : ∀ x ∈ xs, x ≠ "") :
    pyFilterM (fun x => do
      let ch ← pyFirstChar x
      pure (ch == c)) xs = .ok (xs.filter (fun x => x.front == c)) := by
  induction xs with
  | nil => rfl
  | cons x rest ih =>
    have hx : x ≠ "" := h x (List.mem_cons_self x rest)
    have ih' := ih (fun y hy => h y (List.mem_cons_of_mem x hy))
    have hpx : (do
        let ch ← pyFirstChar x
        pure (ch == c) : Except PyErr Bool) = Except.ok (x.front == c) := by
      rw [show pyFirstChar x = Except.ok x.front from if_neg hx]
      rfl
    show (do
        let b ← (do
          let ch ← pyFirstChar x
          pure (ch == c) : Except PyErr Bool)
        let rest2 ← pyFilterM (fun y => do
          let ch ← pyFirstChar y
          pure (ch == c)) rest
        Except.ok (if b then x :: rest2 else rest2)) =
      Except.ok (List.filter (fun y => y.front == c) (x :: rest))
    rw [hpx]
    show (do
        let rest2 ← pyFilterM (fun y => do
          let ch ← pyFirstChar y
          pure (ch == c)) rest
        Except.ok (if x.front == c then x :: rest2 else rest2)) =
      Except.ok (List.filter (fun y => y.front == c) (x :: rest))
    rw [ih']
    show Except.ok (if x.front == c then
        x :: List.filter (fun y => y.front == c) rest
      else List.filter (fun y => y.front == c) rest) =
      Except.ok (List.filter (fun y => y.front == c) (x :: rest))
    simp [List.filter_cons]

/-- Helper: `kindCounts` on nonempty element names is the per-letter `countP`
of the first character. -/
theorem kindCounts_ok (defines : List String) (h : ∀ x ∈ defines, x ≠ "")
    (cs : List Char) :
    kindCounts defines cs =
      .ok (cs.map (fun c =>
        (String.push "num_" c, Val.int (defines.countP (fun x => x.front == c))))) := by
  induction cs with
  | nil => rfl
  | cons c rest ih =>
    show (do
        let xs ← pyFilterM (fun x => do
          let ch ← pyFirstChar x
          pure (ch == c)) defines
        let r ← kindCounts defines rest
        Except.ok ((String.push "num_" c, Val.int xs.length) :: r)) =
      Except.ok ((c :: rest).map (fun c =>
        (String.push "num_" c, Val.int (defines.countP (fun x => x.front == c)))))
    rw [pyFilterM_kind c defines h]
    show (do
        let r ← kindCounts defines rest
        Except.ok ((String.push "num_" c,
          Val.int (List.length (List.filter (fun x => x.front == c) defines))) :: r)) =
      Except.ok ((c :: rest).map (fun c =>
        (String.push "num_" c, Val.int (defines.countP (fun x => x.front == c)))))
    rw [ih]
    show Except.ok ((String.push "num_" c,
        Val.int (List.length (List.filter (fun x => x.front == c) defines))) ::
        rest.map (fun c =>
          (String.push "num_" c, Val.int (defines.countP (fun x => x.front == c))))) =
      Except.ok ((c :: rest).map (fun c =>
        (String.push "num_" c, Val.int (defines.countP (fun x => x.front == c)))))
    simp [List.countP_eq_length_filter]

/-- Helper: pointwise sum of two mapped Nat functions. -/
theorem sum_map_add {A : Type} (l : List A) (f g : A → Nat) :
    (l.map (fun x => f x + g x)).sum = (l.map f).sum + (l.map g).sum := by
  induction l with
  | nil => rfl
  | cons x rest ih =>
    simp only [List.map_cons, List.sum_cons, ih]
    omega

/-- Helper: a first character that is one of the six kind letters is counted
exactly once over the letters. -/
theorem kindLetters_indicator (ch : Char) (h : ch ∈ kindLetters) :
    (kindLetters.map (fun c => if (ch == c) = true then 1 else 0)).sum = 1 := by
  fin_cases h <;> decide

/-- Helper: the six per-kind counts sum to the list length whenever every
first character is one of the six kind letters. -/
theorem kind_count_sum (xs : List String) (h : ∀ x ∈ xs, x.front ∈ kindLetters) :
    (kindLetters.map (fun c => xs.countP (fun x => x.front == c))).sum = xs.length := by
  induction xs with
  | nil => simp [kindLetters]
  | cons x rest ih =>
    have hx : x.front ∈ kindLetters := h x (List.mem_cons_self x rest)
    have hr := ih (fun y hy => h y (List.mem_cons_of_mem x hy))
    simp only [List.countP_cons]
    rw [sum_map_add kindLetters (fun c => rest.countP (fun y => y.front == c))
        (fun c => if (x.front == c) = true then 1 else 0)]
    rw [hr, kindLetters_indicator x.front hx]
    simp

/-- C9: the six per-kind element counts `num_s` .. `num_h` of the feature row
sum to the total element count `num_cg_elems` for every structure whose
element names carry one of the six kind codes. -/
theorem c9_kind_counts_sum_to_total (cg : CG)
    (h : ∀ x ∈ cg.defines, x ≠ "" ∧ x.front ∈ kindLetters) :
    kindCounts cg.defines kindLetters =
      .ok (kindLetters.map (fun c =>
        (String.push "num_" c, Val.int (cg.defines.countP (fun x => x.front == c))))) ∧
    (kindLetters.map (fun c => cg.defines.countP (fun x => x.front == c))).sum =
      cg.defines.length :=
  ⟨kindCounts_ok cg.defines (fun x hx => (h x hx).1) kindLetters,
   kind_count_sum cg.defines (fun x hx => (h x hx).2)⟩

/-- C9 witness: the concrete structure with one stem and one hairpin has
counts summing to its two elements. -/
theorem c9_witness :
    kindCounts cgNoMl.defines kindLetters =
      .ok (kindLetters.map (fun c =>
        (String.push "num_" c, Val.int (cgNoMl.defines.countP (fun x => x.front == c))))) ∧
    (kindLetters.map (fun c => cgNoMl.defines.countP (fun x => x.front == c))).sum =
      cgNoMl.defines.length :=
  c9_kind_counts_sum_to_total cgNoMl (by decide)

/-- Helper: bind of a successful `Except` computation. -/
theorem except_bind_ok {E A B : Type} (a : A) (f : A → Except E B) :
    (Except.ok a >>= f) = f a := rfl

/-- Helper: the distance loop processes every well-formed pair, emitting the
computed entry or a NaN entry plus exactly one warning, in request order. -/
theorem dist_entries_spec (cg : CG) (file_num : Nat) (pairs : List (String × String)) :
    dist_entries cg file_num (pairs.map (fun p => [p.1, p.2])) =
      .ok (pairs.map (distEntrySpec cg),
           (pairs.filter (distFails cg)).map (distWarnSpec cg file_num)) := by
  induction pairs with
  | nil => rfl
  | cons p rest ih =>
    simp only [List.map_cons, dist_entries, pyUnpack2, except_bind_ok, ih]
    cases hv : cg.virtual_residue_distance p.1 p.2 <;>
      simp [distEntrySpec, distFails, distWarnSpec, List.filter_cons, hv, except_bind_ok]

/-- Helper: the angle loop processes every well-formed pair with the same
failure policy as the distance loop. -/
theorem angle_entries_spec (cg : CG) (file_num : Nat) (pairs : List (String × String)) :
    angle_entries cg file_num (pairs.map (fun p => [p.1, p.2])) =
      .ok (pairs.map (angleEntrySpec cg),
           (pairs.filter (angleFails cg)).map (angleWarnSpec cg file_num)) := by
  induction pairs with
  | nil => rfl
  | cons p rest ih =>
    simp only [List.map_cons, angle_entries, pyUnpack2, except_bind_ok, ih]
    cases hv : cg.direction_angle p.1 p.2 <;>
      simp [angleEntrySpec, angleFails, angleWarnSpec, List.filter_cons, hv, except_bind_ok]

/-- C4: for every requested nucleotide pair and element pair, a failing
lookup yields a NaN entry under the `distance_`/`angle_` key and exactly one
warning carrying the ordinal, structure name and pair, while a succeeding
lookup yields its value; every pair is processed (one entry each, in order)
and the loops return successfully — no abort. -/
theorem c4_pair_failure_nan_one_warning_no_abort (cg : CG) (file_num : Nat)
    (dist_pairs angle_pairs : List (String × String)) :
    dist_entries cg file_num (dist_pairs.map (fun p => [p.1, p.2])) =
      .ok (dist_pairs.map (distEntrySpec cg),
           (dist_pairs.filter (distFails cg)).map (distWarnSpec cg file_num)) ∧
    angle_entries cg file_num (angle_pairs.map (fun p => [p.1, p.2])) =
      .ok (angle_pairs.map (angleEntrySpec cg),
           (angle_pairs.filter (angleFails cg)).map (angleWarnSpec cg file_num)) :=
  ⟨dist_entries_spec cg file_num dist_pairs, angle_entries_spec cg file_num angle_pairs⟩

/-- Helper: the last element of a list extended by two entries. -/
theorem getLast?_append_two {A : Type} (l : List A) (a b : A) :
    (l ++ [a, b]).getLast? = some b := by
  rw [show l ++ [a, b] = (l ++ [a]) ++ [b] by simp]
  rw [List.getLast?_concat]

/-- Helper: when every structure before position `pre.length` extracts
successfully and the next one fails, the driver loop stops exactly there: it
returns the error, the log ends with the info and error records of the
failing structure, and the result does not depend on the remaining
structures. -/
theorem process_structs_fail (args : Args) (cg : CG) (fn : String) (e : PyErr) :
    ∀ (pre : List (CG × String)) (n : Nat) (t : Table) (lg : List LogEntry),
      (∀ x ∈ pre, ∀ j t0, ∃ r, extract_one args j x.1 x.2 t0 = .ok r) →
      (∀ t0, extract_one args (n + pre.length) cg fn t0 = .error e) →
      ∃ t' lg0, ∀ rest,
        process_structs args (pre ++ (cg, fn) :: rest) n t lg =
          (t', lg0 ++ [LogEntry.info (n + pre.length) cg.name,
                       LogEntry.errorStructure (n + pre.length) cg.name], some e) := by
  intro pre
  induction pre with
  | nil =>
    intro n t lg hpre hfail
    refine ⟨t, lg, fun rest => ?_⟩
    have hf := hfail t
    simp only [List.length_nil, Nat.add_zero] at hf ⊢
    simp only [List.nil_append, process_structs, hf]
    simp
  | cons hd tl ih =>
    intro n t lg hpre hfail
    obtain ⟨chd, fhd⟩ := hd
    obtain ⟨r, hr⟩ := hpre (chd, fhd) (List.mem_cons_self _ _) n t
    have hfail' : ∀ t0, extract_one args (n + 1 + tl.length) cg fn t0 = .error e := by
      intro t0
      rw [show n + 1 + tl.length = n + (tl.length + 1) from by omega]
      simpa using hfail t0
    obtain ⟨t', lg0, hrest⟩ :=
      ih (n + 1) r.1 ((lg ++ [LogEntry.info n chd.name]) ++ r.2)
        (fun y hy => hpre y (List.mem_cons_of_mem _ hy)) hfail'
    refine ⟨t', lg0, fun rest => ?_⟩
    simp only [List.cons_append, process_structs, hr, List.append_eq]
    rw [hrest rest]
    have harith : n + 1 + tl.length = n + (tl.length + 1) := by omega
    simp [harith]

/-- C5: when the extraction of one structure raises (and every structure
before it extracts cleanly), the driver logs an error record carrying the
structure's 1-based ordinal and name as the final log entry, re-raises the
exception so the whole run aborts with no output action, and the outcome is
independent of the structures that follow. -/
theorem c5_structure_error_logged_fatal (args : Args) (pre : List (CG × String))
    (cg : CG) (fn : String) (rest rest2 : List (CG × String)) (e : PyErr)
    (fileExists : Bool)
    (hpre : ∀ x ∈ pre, ∀ j t0, ∃ r, extract_one args j x.1 x.2 t0 = .ok r)
    (hfail : ∀ t0, extract_one args (pre.length + 1) cg fn t0 = .error e) :
    (main_run args (pre ++ (cg, fn) :: rest) fileExists).2 = .error e ∧
    (main_run args (pre ++ (cg, fn) :: rest) fileExists).1.getLast? =
      some (LogEntry.errorStructure (pre.length + 1) cg.name) ∧
    main_run args (pre ++ (cg, fn) :: rest) fileExists =
      main_run args (pre ++ (cg, fn) :: rest2) fileExists := by
  have hfail1 : ∀ t0, extract_one args (1 + pre.length) cg fn t0 = .error e := by
    intro t0
    rw [Nat.add_comm 1 pre.length]
    exact hfail t0
  obtain ⟨t', lg0, hrest⟩ := process_structs_fail args cg fn e pre 1 [] [] hpre hfail1
  have hmain : ∀ r, main_run args (pre ++ (cg, fn) :: r) fileExists =
      (lg0 ++ [LogEntry.info (1 + pre.length) cg.name,
               LogEntry.errorStructure (1 + pre.length) cg.name], .error e) := by
    intro r
    unfold main_run
    rw [hrest r]
  rw [Nat.add_comm 1 pre.length] at hmain
  refine ⟨by rw [hmain rest], ?_, by rw [hmain rest, hmain rest2]⟩
  rw [hmain rest]
  exact getLast?_append_two lg0 _ _

/-- C5 witness: after one successful structure, the failing second structure
aborts the concrete per-ml run with its TypeError as the last log record,
and the third structure does not influence the outcome. -/
theorem c5_witness :
    (main_run argsPerMl ([(cgSegOk, "f1")] ++ (cgSegBad, "f2") :: [(cgSegOk, "f3")]) false).2 =
      .error .typeError ∧
    (main_run argsPerMl ([(cgSegOk, "f1")] ++ (cgSegBad, "f2") :: [(cgSegOk, "f3")]) false).1.getLast? =
      some (LogEntry.errorStructure ([(cgSegOk, "f1")].length + 1) cgSegBad.name) ∧
    main_run argsPerMl ([(cgSegOk, "f1")] ++ (cgSegBad, "f2") :: [(cgSegOk, "f3")]) false =
      main_run argsPerMl ([(cgSegOk, "f1")] ++ (cgSegBad, "f2") :: []) false :=
  c5_structure_error_logged_fatal argsPerMl [(cgSegOk, "f1")] cgSegBad "f2"
    [(cgSegOk, "f3")] [] PyErr.typeError false
    (by
      intro x hx j t0
      rw [List.mem_singleton] at hx
      subst hx
      exact ⟨_, rfl⟩)
    (fun _ => rfl)

/-- C8: with a truthy `--keys` list, the surviving columns are exactly the
produced columns that are in the allow-list or are "name": every produced
column outside the list — including filename — is dropped, and a produced
name column is always retained. -/
theorem c8_key_filter_exact_columns (ks : String) (t : Table) (hks : ks ≠ "") :
    (∀ k, k ∈ tableCols (key_filter (some ks) t) ↔
      (k ∈ tableCols t ∧ (k ∈ ks.splitOn "," ∨ k = "name"))) ∧
    (∀ k, k ∈ tableCols t → k ∉ ks.splitOn "," → k ≠ "name" →
      k ∉ tableCols (key_filter (some ks) t)) ∧
    ("name" ∈ tableCols t → "name" ∈ tableCols (key_filter (some ks) t)) := by
  have hpt : pyTruthy (some ks) = true := by
    simp [pyTruthy, hks]
  have hmain : ∀ k, k ∈ tableCols (key_filter (some ks) t) ↔
      (k ∈ tableCols t ∧ (k ∈ ks.splitOn "," ∨ k = "name")) := by
    intro k
    simp only [key_filter, hpt, if_true, tableCols, List.mem_map, List.mem_filter,
      Option.getD_some, List.elem_iff, List.mem_append, List.mem_singleton]
    constructor
    · rintro ⟨kv, ⟨hkv, hallow⟩, rfl⟩
      exact ⟨⟨kv, hkv, rfl⟩, by simpa using hallow⟩
    · rintro ⟨⟨kv, hkv, rfl⟩, hin⟩
      exact ⟨kv, ⟨hkv, by simpa using hin⟩, rfl⟩
  refine ⟨hmain, ?_, ?_⟩
  · intro k hk hnot hname hmem
    rcases (hmain k).mp hmem with ⟨-, h | h⟩
    · exact hnot h
    · exact hname h
  · intro h
    exact (hmain "name").mpr ⟨h, Or.inr rfl⟩

/-- C8 witness: with keys "a,b" on a table with columns name, filename, a
and c, the filter keeps exactly name and a, drops filename and c, and
retains name. -/
theorem c8_witness :
    (∀ k, k ∈ tableCols (key_filter (some "a,b") tC8) ↔
      (k ∈ tableCols tC8 ∧ (k ∈ ("a,b").splitOn "," ∨ k = "name"))) ∧
    (∀ k, k ∈ tableCols tC8 → k ∉ ("a,b").splitOn "," → k ≠ "name" →
      k ∉ tableCols (key_filter (some "a,b") tC8)) ∧
    ("name" ∈ tableCols tC8 → "name" ∈ tableCols (key_filter (some "a,b") tC8)) :=
  c8_key_filter_exact_columns "a,b" tC8 (by decide)

/-- Helper: bind of a failing `Except` computation. -/
theorem except_bind_error {E A B : Type} (e : E) (f : A → Except E B) :
    ((Except.error e : Except E A) >>= f) = Except.error e := rfl

/-- Helper: inversion of one inner-loop iteration of `describe_ml_segments`:
a successful step either skips a non-"m" segment unchanged, or appends to
every column, the three flags coming from the passed descriptor list. -/
theorem seg_step_inv (cg : CG) (loop description : List String) (sd0 : SegData)
    (s : String) (sd' : SegData)
    (h : seg_step cg loop description sd0 s = .ok sd') :
    (isMlSeg s = false ∧ sd' = sd0) ∨
    (isMlSeg s = true ∧
      sd'.segment = sd0.segment ++ [Val.str s] ∧
      sd'.is_external_multiloop =
        sd0.is_external_multiloop ++ [Val.bool (description.contains "open")] ∧
      sd'.is_pseudoknotted_multiloop =
        sd0.is_pseudoknotted_multiloop ++ [Val.bool (description.contains "pseudoknot")] ∧
      sd'.is_regular_multiloop =
        sd0.is_regular_multiloop ++ [Val.bool (description.contains "regular_multiloop")]) := by
  by_cases hs : s = ""
  · subst hs
    simp [seg_step, pyFirstChar, except_bind_error] at h
  · have hfc : pyFirstChar s = Except.ok s.front := if_neg hs
    simp only [seg_step, hfc, except_bind_ok] at h
    by_cases hm : s.front = 'm'
    · rw [if_neg (not_not_intro hm)] at h
      rcases hat : cg.get_angle_type s with e1 | av
      · rw [hat, except_bind_error] at h
        exact Except.noConfusion h
      · rw [hat, except_bind_ok] at h
        rcases hang : cg.direction_angle (cg.connections s).1 (cg.connections s).2 with e2 | av2
        · rw [hang, except_bind_error] at h
          exact Except.noConfusion h
        · rw [hang, except_bind_ok] at h
          rcases hjd : cg.junction_virtual_atom_distance s with e3 | jd
          · rw [hjd, except_bind_error] at h
            exact Except.noConfusion h
          · rw [hjd, except_bind_ok] at h
            injection h with h
            subst h
            exact Or.inr ⟨by simp [isMlSeg, hm], rfl, rfl, rfl, rfl⟩
    · rw [if_pos hm] at h
      injection h with h
      subst h
      exact Or.inl ⟨by simp [isMlSeg, hm], rfl⟩

/-- Helper: the inner segment loop appends, per "m"-segment of the multiloop
in order, one entry to the segment column and one flag derived from the
multiloop's own descriptor list to each flag column. -/
theorem seg_fold_ok (cg : CG) (loop description : List String) :
    ∀ (segs : List String) (sd0 sd1 : SegData),
      seg_fold cg loop description segs sd0 = .ok sd1 →
      sd1.segment = sd0.segment ++ (segs.filter isMlSeg).map Val.str ∧
      sd1.is_external_multiloop = sd0.is_external_multiloop ++
        (segs.filter isMlSeg).map (fun _ => Val.bool (description.contains "open")) ∧
      sd1.is_pseudoknotted_multiloop = sd0.is_pseudoknotted_multiloop ++
        (segs.filter isMlSeg).map (fun _ => Val.bool (description.contains "pseudoknot")) ∧
      sd1.is_regular_multiloop = sd0.is_regular_multiloop ++
        (segs.filter isMlSeg).map (fun _ => Val.bool (description.contains "regular_multiloop")) := by
  intro segs
  induction segs with
  | nil =>
    intro sd0 sd1 h
    simp only [seg_fold] at h
    injection h with h
    subst h
    simp
  | cons s rest ih =>
    intro sd0 sd1 h
    rcases hstep : seg_step cg loop description sd0 s with e | sd'
    · simp only [seg_fold] at h
      rw [hstep, except_bind_error] at h
      exact Except.noConfusion h
    · have h' : seg_fold cg loop description rest sd' = .ok sd1 := by
        simp only [seg_fold] at h
        rw [hstep, except_bind_ok] at h
        exact h
      obtain ⟨h1, h2, h3, h4⟩ := ih sd' sd1 h'
      rcases seg_step_inv cg loop description sd0 s sd' hstep with
        ⟨hm, rfl⟩ | ⟨hm, g1, g2, g3, g4⟩
      · rw [List.filter_cons_of_neg (by simp [hm])]
        exact ⟨h1, h2, h3, h4⟩
      · rw [List.filter_cons_of_pos (by simp [hm])]
        refine ⟨?_, ?_, ?_, ?_⟩ <;>
          simp [h1, h2, h3, h4, g1, g2, g3, g4]

/-- Helper: the outer multiloop loop concatenates the per-multiloop segment
entries and flags, each multiloop contributing flags from its own descriptor
list. -/
theorem ml_seg_fold_ok (cg : CG) :
    ∀ (loops : List (List String)) (sd0 sd1 : SegData),
      ml_seg_fold cg loops sd0 = .ok sd1 →
      sd1.segment = sd0.segment ++
        (loops.map (fun l => (l.filter isMlSeg).map Val.str)).flatten ∧
      sd1.is_external_multiloop = sd0.is_external_multiloop ++
        (loops.map (fun l => (l.filter isMlSeg).map
          (fun _ => Val.bool ((cg.describe_multiloop l).contains "open")))).flatten ∧
      sd1.is_pseudoknotted_multiloop = sd0.is_pseudoknotted_multiloop ++
        (loops.map (fun l => (l.filter isMlSeg).map
          (fun _ => Val.bool ((cg.describe_multiloop l).contains "pseudoknot")))).flatten ∧
      sd1.is_regular_multiloop = sd0.is_regular_multiloop ++
        (loops.map (fun l => (l.filter isMlSeg).map
          (fun _ => Val.bool ((cg.describe_multiloop l).contains "regular_multiloop")))).flatten := by
  intro loops
  induction loops with
  | nil =>
    intro sd0 sd1 h
    simp only [ml_seg_fold] at h
    injection h with h
    subst h
    simp
  | cons loop rest ih =>
    intro sd0 sd1 h
    rcases hstep : seg_fold cg loop (cg.describe_multiloop loop) loop sd0 with e | sd'
    · simp only [ml_seg_fold] at h
      rw [hstep, except_bind_error] at h
      exact Except.noConfusion h
    · have h' : ml_seg_fold cg rest sd' = .ok sd1 := by
        simp only [ml_seg_fold] at h
        rw [hstep, except_bind_ok] at h
        exact h
      obtain ⟨h1, h2, h3, h4⟩ := ih sd' sd1 h'
      obtain ⟨g1, g2, g3, g4⟩ :=
        seg_fold_ok cg loop (cg.describe_multiloop loop) loop sd0 sd' hstep
      refine ⟨?_, ?_, ?_, ?_⟩ <;>
        simp [h1, h2, h3, h4, g1, g2, g3, g4]

/-- Helper: appending to a column grows exactly that column by one value. -/
theorem tableGet_tableAppend_self (t : Table) (k : String) (v : Val) :
    tableGet (tableAppend t k v) k = some (((tableGet t k).getD []) ++ [v]) := by
  induction t with
  | nil => simp [tableAppend, tableGet]
  | cons kv rest ih =>
    obtain ⟨k2, vs⟩ := kv
    by_cases hk : k2 = k
    · subst hk
      simp [tableAppend, tableGet]
    · simp [tableAppend, tableGet, hk, ih]

/-- Helper: appending to one column leaves every other column unchanged. -/
theorem tableGet_tableAppend_other (t : Table) (k k2 : String) (v : Val) (hk : k2 ≠ k) :
    tableGet (tableAppend t k2 v) k = tableGet t k := by
  induction t with
  | nil => simp [tableAppend, tableGet, hk]
  | cons kv rest ih =>
    obtain ⟨k3, vs⟩ := kv
    by_cases h1 : k3 = k2
    · subst h1
      simp [tableAppend, tableGet, hk]
    · simp [tableAppend, tableGet, h1, ih]

/-- Helper: appending a name value adds one row. -/
theorem rowCount_tableAppend_name (t : Table) (v : Val) :
    rowCount (tableAppend t "name" v) = rowCount t + 1 := by
  simp [rowCount, tableGet_tableAppend_self]

/-- Helper: appending to a non-name column does not change the row count. -/
theorem rowCount_tableAppend_other (t : Table) (k : String) (v : Val) (hk : k ≠ "name") :
    rowCount (tableAppend t k v) = rowCount t := by
  simp [rowCount, tableGet_tableAppend_other t "name" k v hk]

/-- Helper: appending the nine per-segment columns does not change the row
count. -/
theorem rowCount_items_fold (sd : SegData) (i : Nat) (t : Table) :
    rowCount ((SegData.items sd).foldl
      (fun a kv => tableAppend a kv.1 (kv.2.getD i Val.nan)) t) = rowCount t := by
  simp only [SegData.items, List.foldl_cons, List.foldl_nil]
  rw [rowCount_tableAppend_other _ "is_regular_multiloop" _ (by decide),
      rowCount_tableAppend_other _ "is_pseudoknotted_multiloop" _ (by decide),
      rowCount_tableAppend_other _ "is_external_multiloop" _ (by decide),
      rowCount_tableAppend_other _ "junction_va_distance" _ (by decide),
      rowCount_tableAppend_other _ "angle_between_stems" _ (by decide),
      rowCount_tableAppend_other _ "angle_type" _ (by decide),
      rowCount_tableAppend_other _ "segment_length" _ (by decide),
      rowCount_tableAppend_other _ "junction_length" _ (by decide),
      rowCount_tableAppend_other _ "segment" _ (by decide)]

/-- Helper: one per-ml row expansion iteration adds exactly one row. -/
theorem rowCount_expand_iter (name filename : String) (sd : SegData) (acc : Table) (i : Nat) :
    rowCount ((SegData.items sd).foldl
      (fun a kv => tableAppend a kv.1 (kv.2.getD i Val.nan))
      (tableAppend (tableAppend acc "name" (Val.str name)) "filename" (Val.str filename))) =
    rowCount acc + 1 := by
  rw [rowCount_items_fold]
  rw [rowCount_tableAppend_other _ "filename" _ (by decide)]
  rw [rowCount_tableAppend_name]

/-- Helper: the per-ml expansion appends one table row per segment entry. -/
theorem rowCount_per_ml_expand (name filename : String) (sd : SegData) (t : Table) :
    rowCount (per_ml_expand name filename sd t) = rowCount t + sd.segment.length := by
  unfold per_ml_expand
  generalize sd.segment.length = n
  induction n with
  | zero => simp
  | succ m ih =>
    rw [List.range_succ, List.foldl_append]
    simp only [List.foldl_cons, List.foldl_nil]
    rw [rowCount_expand_iter, ih]
    omega

/-- Helper: the specified segment column has one entry per "m"-segment. -/
theorem segNamesSpec_length (cg : CG) : (segNamesSpec cg).length = mSegTotal cg := by
  simp only [segNamesSpec, mSegTotal]
  rw [List.length_flatten, List.map_map]
  rw [show (List.length ∘ fun l : List String => List.map Val.str (List.filter isMlSeg l)) =
      fun l : List String => (List.filter isMlSeg l).length from funext (fun l => by simp)]

/-- C7: in per-segment mode the extracted data holds one entry per "m"-kind
segment across all multiloops (and the driver's row expansion appends exactly
that many rows), and each segment's three multiloop flags are derived from
the descriptor list of the one multiloop the segment belongs to. -/
theorem c7_per_segment_rows_and_flags (cg : CG) (sd : SegData)
    (h : describe_ml_segments cg = .ok sd) :
    sd.segment = segNamesSpec cg ∧
    sd.segment.length = mSegTotal cg ∧
    sd.is_external_multiloop = segFlagsSpec cg "open" ∧
    sd.is_pseudoknotted_multiloop = segFlagsSpec cg "pseudoknot" ∧
    sd.is_regular_multiloop = segFlagsSpec cg "regular_multiloop" ∧
    (∀ name filename, rowCount (per_ml_expand name filename sd []) = mSegTotal cg) := by
  obtain ⟨h1, h2, h3, h4⟩ := ml_seg_fold_ok cg cg.find_mlonly_multiloops SegData.empty sd h
  have hseg : sd.segment = segNamesSpec cg := by
    simpa [SegData.empty, segNamesSpec] using h1
  have hlen : sd.segment.length = mSegTotal cg := by
    rw [hseg, segNamesSpec_length]
  refine ⟨hseg, hlen, ?_, ?_, ?_, ?_⟩
  · simpa [SegData.empty, segFlagsSpec] using h2
  · simpa [SegData.empty, segFlagsSpec] using h3
  · simpa [SegData.empty, segFlagsSpec] using h4
  · intro name filename
    rw [rowCount_per_ml_expand, hlen]
    simp [rowCount, tableGet]

/-- C7 witness: on the concrete two-multiloop structure, the three
"m"-segments give three rows, the first two flagged from the regular
junction's descriptors and the third from the open one's. -/
theorem c7_witness :
    sdSegOk.segment = segNamesSpec cgSegOk ∧
    sdSegOk.segment.length = mSegTotal cgSegOk ∧
    sdSegOk.is_external_multiloop = segFlagsSpec cgSegOk "open" ∧
    sdSegOk.is_pseudoknotted_multiloop = segFlagsSpec cgSegOk "pseudoknot" ∧
    sdSegOk.is_regular_multiloop = segFlagsSpec cgSegOk "regular_multiloop" ∧
    (∀ name filename, rowCount (per_ml_expand name filename sdSegOk []) = mSegTotal cgSegOk) :=
  c7_per_segment_rows_and_flags cgSegOk sdSegOk (by rfl)

end DescribeCG
